import Mathlib

/-!
Shallow embedding of the support-hub ticketing domain model
(`src/tickets/models.py` and the validation/lifecycle/query layer it
declares), together with theorems settling the spec claims.

Conventions of the embedding:
* database timestamps are `Nat` instants (UTC);
* entity references are `Nat` ids, optional references are `Option Nat`;
* the database is an explicit record of entity lists, operations are pure
  functions from database to database (fallible ones return `Except`);
* Django `CharField(choices=...)` values are `String`s validated against
  the declared choice lists, as in the source.
-/

namespace SupportHub

/-- The four ticket status choices (`Ticket.STATUS` in
`src/tickets/models.py`, confirmed by migration `0003_alter_ticket_status`). -/
def STATUS : List String := ["open", "inprogress", "onhold", "closed"]

/-- The two ticket type choices (`Ticket.TYPE`). -/
def TYPE : List String := ["request", "incident"]

/-- The three ticket priority choices (`Ticket.PRIORITY`). -/
def PRIORITY : List String := ["low", "medium", "high"]

/-- An uploaded image file, abstracted to the attributes the validator
reads: its extension and its size in bytes. -/
structure ImageFile where
  ext : String
  size : Nat
deriving Repr, DecidableEq

/-- `Team` model: `{id, name}`. -/
structure Team where
  id : Nat
  name : String
deriving Repr, DecidableEq

/-- `TicketCategory` model: `{id, name}`. -/
structure TicketCategory where
  id : Nat
  name : String
deriving Repr, DecidableEq

/-- `Ticket` model row (`src/tickets/models.py`, class `Ticket`). -/
structure Ticket where
  id : Nat
  author : Nat
  title : String
  description : String
  ticket_image : Option ImageFile
  status : String
  type : String
  priority : String
  created_on : Nat
  updated_on : Nat
  category : Option Nat
  assigned_team : Option Nat
  assigned_technician : Option Nat
deriving Repr, DecidableEq

/-- `Comment` model row (`src/tickets/models.py`, class `Comment`):
ticket reference (CASCADE), nullable author (SET_NULL), body, creation
timestamp. -/
structure Comment where
  id : Nat
  ticket : Nat
  author : Option Nat
  body : String
  created_on : Nat
deriving Repr, DecidableEq

/-- Database state: the persisted rows of each model, plus the id counter
the storage layer uses for newly inserted tickets. -/
structure DB where
  users : List Nat
  teams : List Team
  categories : List TicketCategory
  tickets : List Ticket
  comments : List Comment
  nextTicketId : Nat
deriving Repr, DecidableEq

/-- The empty database. -/
def DB.initial : DB := ⟨[], [], [], [], [], 1⟩

/-! ### Display sanitization: `stripMarkup` / `django.utils.html.strip_tags`

`Comment.body_without_tags` returns `strip_tags(self.body)`.  The tag
stripper removes every `<...>` tag span and keeps all characters outside
tags unchanged. -/

/-- Character scanner for tag stripping.  The `Bool` flag records whether
the scanner is inside a `<...>` tag: outside a tag, `<` enters tag mode
and every other character is kept; inside a tag, `>` leaves tag mode and
every character of the tag is dropped. -/
def stripTagsAux : Bool → List Char → List Char
  | _, [] => []
  | false, c :: cs => if c = '<' then stripTagsAux true cs else c :: stripTagsAux false cs
  | true, c :: cs => if c = '>' then stripTagsAux false cs else stripTagsAux true cs

/-- `stripMarkup(text)`: removes all markup tags, keeps every non-tag
character (embedding of `django.utils.html.strip_tags` as used by
`Comment.body_without_tags`). -/
def stripMarkup (s : String) : String := ⟨stripTagsAux false s.data⟩

/-- `Comment.body_without_tags` property: the comment body stripped of
all HTML tags. -/
def Comment.body_without_tags (c : Comment) : String := stripMarkup c.body

/-! ### Validation layer (`src/tickets/validators.py`)

`models.py` imports `textfield_not_empty` and `validate_image` from
`tickets.validators`; that file is not part of the provided sources, so
the two validators are modelled from the spec. -/

/-- Validation error kinds (spec section 7), plus `InvalidChoice` for a
value outside a `choices` list, which the form layer rejects. -/
inductive ValidationError where
  | EmptyOrTooShort
  | TitleLengthOutOfRange
  | InvalidImageType
  | ImageTooLarge
  | InvalidChoice
deriving Repr, DecidableEq

/-- `NotFoundError` (spec section 7). -/
inductive NotFoundError where
  | NotFound
deriving Repr, DecidableEq

/-- Modelled from the spec: `textfield_not_empty` of `tickets/validators.py`
is absent from the sources.  Spec sections 3 and 4.1: the value, after
HTML-tag removal, must have length at least `minLength` and must not be
whitespace-only (in particular not empty); otherwise the check fails with
`EmptyOrTooShort`. -/
def textfield_not_empty (minLength : Nat) (value : String) : Option ValidationError :=
  if (stripMarkup value).length < minLength ∨ (stripMarkup value).data.all Char.isWhitespace then
    some .EmptyOrTooShort
  else none

/-- Modelled from the spec: `validate_image` of `tickets/validators.py`
is absent from the sources.  Spec section 4.1: fails with
`InvalidImageType` unless the extension is `jpg` or `png`; fails with
`ImageTooLarge` if the size exceeds 3 MB (3 * 1024 * 1024 bytes). -/
def validate_image (f : ImageFile) : Option ValidationError :=
  if f.ext ≠ "jpg" ∧ f.ext ≠ "png" then some .InvalidImageType
  else if f.size > 3 * 1024 * 1024 then some .ImageTooLarge
  else none

/-- Title validation: `CharField(max_length=50,
validators=[MinLengthValidator(10)])` — length must lie in `[10, 50]`. -/
def validate_title (title : String) : Option ValidationError :=
  if title.length < 10 ∨ title.length > 50 then some .TitleLengthOutOfRange else none

/-! ### Ticket lifecycle service -/

/-- Arguments a caller supplies to `createTicket` (the fields of
`StaffTicketCreationForm`: type, category, title, description, image). -/
structure CreateArgs where
  author : Nat
  title : String
  description : String
  type : String
  category : Option Nat
  image : Option ImageFile
deriving Repr, DecidableEq

/-- All validation errors for a `createTicket` call: title bounds,
description via `textfield_not_empty(min_length=20)`, optional image via
`validate_image`, and the `type` choice list. -/
def createErrors (a : CreateArgs) : List ValidationError :=
  (validate_title a.title).toList ++
  (textfield_not_empty 20 a.description).toList ++
  (match a.image with
   | none => []
   | some f => (validate_image f).toList) ++
  (if a.type ∈ TYPE then [] else [.InvalidChoice])

/-- `createTicket`: validates all fields; on success appends a fully
valid ticket with `status = open`, `priority = low` defaults and
`created_on = updated_on = now`; on failure persists nothing. -/
def createTicket (db : DB) (a : CreateArgs) (now : Nat) :
    Except (List ValidationError) DB :=
  match createErrors a with
  | [] =>
      let t : Ticket :=
        { id := db.nextTicketId
          author := a.author
          title := a.title
          description := a.description
          ticket_image := a.image
          status := "open"
          type := a.type
          priority := "low"
          created_on := now
          updated_on := now
          category := a.category
          assigned_team := none
          assigned_technician := none }
      .ok { db with tickets := db.tickets ++ [t], nextTicketId := db.nextTicketId + 1 }
  | errs => .error errs

/-- `createTicket` as a database transformer: on a validation failure the
database is returned unchanged (nothing is persisted). -/
def createTicketApply (db : DB) (a : CreateArgs) (now : Nat) : DB :=
  match createTicket db a now with
  | .ok db2 => db2
  | .error _ => db

/-- Update a single ticket row in place (`save(update_fields=...)`:
only the fields changed by `f` are written, every other row is
untouched). -/
def DB.updateTicket (db : DB) (tid : Nat) (f : Ticket → Ticket) : DB :=
  { db with tickets := db.tickets.map (fun t => if t.id = tid then f t else t) }

/-- `Ticket.set_ticket_updated_now` (`src/tickets/models.py` lines
147-152): sets `updated_on` to the current UTC time and persists exactly
that field (`save(update_fields=["updated_on"])`). -/
def set_ticket_updated_now (db : DB) (tid : Nat) (now : Nat) : DB :=
  db.updateTicket tid (fun t => { t with updated_on := now })

/-- `updateStatus(ticket, newStatus)`: any of the four enumerated values
may be set; a value outside the choice list is rejected and nothing is
written.  On success persists the new status plus a refreshed
`updated_on`. -/
def updateStatus (db : DB) (tid : Nat) (s : String) (now : Nat) : DB :=
  if s ∈ STATUS then
    db.updateTicket tid (fun t => { t with status := s, updated_on := now })
  else db

/-- `assignTeam(ticket, team|null)`: sets the optional team relation and
refreshes `updated_on`. -/
def assignTeam (db : DB) (tid : Nat) (tm : Option Nat) (now : Nat) : DB :=
  db.updateTicket tid (fun t => { t with assigned_team := tm, updated_on := now })

/-- `assignTechnician(ticket, user|null)`. -/
def assignTechnician (db : DB) (tid : Nat) (u : Option Nat) (now : Nat) : DB :=
  db.updateTicket tid (fun t => { t with assigned_technician := u, updated_on := now })

/-- `assignCategory(ticket, category|null)`. -/
def assignCategory (db : DB) (tid : Nat) (c : Option Nat) (now : Nat) : DB :=
  db.updateTicket tid (fun t => { t with category := c, updated_on := now })

/-- Deleting a team: the team row is removed and, per
`on_delete=models.SET_NULL` on `Ticket.assigned_team`, every ticket
referencing it gets `assigned_team = null`.  No other ticket field is
touched. -/
def deleteTeam (db : DB) (tmid : Nat) : DB :=
  { db with
      teams := db.teams.filter (fun tm => tm.id ≠ tmid)
      tickets := db.tickets.map (fun t =>
        if t.assigned_team = some tmid then { t with assigned_team := none } else t) }

/-- Deleting a category: `on_delete=models.SET_NULL` on
`Ticket.category`. -/
def deleteCategory (db : DB) (cid : Nat) : DB :=
  { db with
      categories := db.categories.filter (fun c => c.id ≠ cid)
      tickets := db.tickets.map (fun t =>
        if t.category = some cid then { t with category := none } else t) }

/-- Deleting a user `u`:
* tickets authored by `u` are deleted (`on_delete=models.CASCADE` on
  `Ticket.author`), and every comment of such a ticket cascades away with
  its ticket (`on_delete=models.CASCADE` on `Comment.ticket`);
* surviving tickets with `assigned_technician = u` get it nulled
  (`SET_NULL`);
* surviving comments authored by `u` keep their row with `author = null`
  (`on_delete=models.SET_NULL` on `Comment.author`). -/
def deleteUser (db : DB) (u : Nat) : DB :=
  { db with
      users := db.users.filter (fun x => x ≠ u)
      tickets := (db.tickets.filter (fun t => t.author ≠ u)).map (fun t =>
        if t.assigned_technician = some u then { t with assigned_technician := none } else t)
      comments := (db.comments.filter (fun c =>
          ¬ db.tickets.any (fun t => t.id = c.ticket ∧ t.author = u))).map (fun c =>
        if c.author = some u then { c with author := none } else c) }

/-! ### Query/filtering service

`Ticket.Meta.ordering = ("-updated_on",)`: ticket listings are ordered by
`updated_on` descending and nothing else; rows with equal `updated_on`
are returned in the storage order, modelled as a stable sort over the
stored row list. -/

/-- Stable descending insertion for the `-updated_on` ordering: a row is
placed before the first row with a strictly smaller `updated_on`, so rows
with equal timestamps keep their stored order. -/
def insertByUpdatedDesc (x : Ticket) : List Ticket → List Ticket
  | [] => [x]
  | h :: t =>
      if h.updated_on ≤ x.updated_on then x :: h :: t
      else h :: insertByUpdatedDesc x t

/-- Stable sort of ticket rows by `updated_on` descending. -/
def sortByUpdatedDesc : List Ticket → List Ticket
  | [] => []
  | h :: t => insertByUpdatedDesc h (sortByUpdatedDesc t)

/-- A conjunctive ticket filter (all supplied predicates must hold). -/
structure TicketFilter where
  status : Option String := none
  category : Option Nat := none
  team : Option Nat := none
  technician : Option Nat := none
  author : Option Nat := none
deriving Repr, DecidableEq

/-- Whether a ticket matches every supplied predicate of the filter. -/
def TicketFilter.matches (f : TicketFilter) (t : Ticket) : Bool :=
  (f.status.all (fun s => t.status = s)) &&
  (f.category.all (fun c => t.category = some c)) &&
  (f.team.all (fun tm => t.assigned_team = some tm)) &&
  (f.technician.all (fun u => t.assigned_technician = some u)) &&
  (f.author.all (fun u => t.author = u))

/-- `listTickets(filter)`: the matching tickets, ordered by `updated_on`
descending (the model `Meta` ordering). -/
def listTickets (db : DB) (f : TicketFilter) : List Ticket :=
  sortByUpdatedDesc (db.tickets.filter f.matches)

/-- `getTicket(id)`. -/
def getTicket (db : DB) (tid : Nat) : Except NotFoundError Ticket :=
  match db.tickets.find? (fun t => t.id = tid) with
  | some t => .ok t
  | none => .error .NotFound

/-- Stable ascending insertion by `created_on` for comment listings. -/
def insertByCreatedAsc (x : Comment) : List Comment → List Comment
  | [] => [x]
  | h :: t =>
      if x.created_on < h.created_on then x :: h :: t
      else h :: insertByCreatedAsc x t

/-- Stable sort of comment rows by `created_on` ascending. -/
def sortByCreatedAsc : List Comment → List Comment
  | [] => []
  | h :: t => insertByCreatedAsc h (sortByCreatedAsc t)

/-- Modelled from the spec: the comment-retrieval operation lives in the
view layer, which is absent from the sources (the `Comment` model
declares no `Meta` ordering).  Spec section 4.3: `listComments(ticketId)`
returns the ticket's comments ordered by `created_on` ascending
(chronological). -/
def listComments (db : DB) (tid : Nat) : List Comment :=
  sortByCreatedAsc (db.comments.filter (fun c => c.ticket = tid))

/-! ### Operation sequences

For the always-invariants, every mutating entry point of the lifecycle
service, applied in any order from the initial (empty) database. -/

/-- A mutating operation of the lifecycle service, together with the
clock instant at which it runs. -/
inductive Op where
  | create (a : CreateArgs) (now : Nat)
  | setStatus (tid : Nat) (s : String) (now : Nat)
  | team (tid : Nat) (tm : Option Nat) (now : Nat)
  | technician (tid : Nat) (u : Option Nat) (now : Nat)
  | categorize (tid : Nat) (c : Option Nat) (now : Nat)
  | touch (tid : Nat) (now : Nat)
  | dropTeam (tmid : Nat)
  | dropCategory (cid : Nat)
  | dropUser (u : Nat)
deriving Repr, DecidableEq

/-- Apply one operation to the database. -/
def applyOp (db : DB) : Op → DB
  | .create a now => createTicketApply db a now
  | .setStatus tid s now => updateStatus db tid s now
  | .team tid tm now => assignTeam db tid tm now
  | .technician tid u now => assignTechnician db tid u now
  | .categorize tid c now => assignCategory db tid c now
  | .touch tid now => set_ticket_updated_now db tid now
  | .dropTeam tmid => deleteTeam db tmid
  | .dropCategory cid => deleteCategory db cid
  | .dropUser u => deleteUser db u

/-- Run a sequence of operations from the initial database. -/
def runOps (ops : List Op) : DB := ops.foldl applyOp DB.initial

/-- Concrete valid creation arguments used by the C7 witness: a 20-char
title, a 25-character tag-free description, type incident, no category,
no image. -/
def printerArgs : CreateArgs :=
  { author := 1
    title := "Printer broken today"
    description := "This printer is broken ok"
    type := "incident"
    category := none
    image := none }

/-- Concrete ticket row for the C6 and C8 witnesses. -/
def witnessTicket : Ticket :=
  { id := 1
    author := 1
    title := "Printer broken today"
    description := "This printer is broken ok"
    ticket_image := none
    status := "open"
    type := "incident"
    priority := "low"
    created_on := 3
    updated_on := 3
    category := none
    assigned_team := some 5
    assigned_technician := none }

/-- Concrete database for the C6 and C8 witnesses: one team, one user,
one open ticket assigned to the team. -/
def witnessDB : DB :=
  { users := [1]
    teams := [⟨5, "Networks"⟩]
    categories := []
    tickets := [witnessTicket]
    comments := []
    nextTicketId := 2 }

/-- The ticket-listing order the spec claims: `updated_on` descending
with ties broken by `id` descending. -/
def updatedDescThenIdDesc (a b : Ticket) : Prop :=
  b.updated_on < a.updated_on ∨ (a.updated_on = b.updated_on ∧ b.id < a.id)

/-- The ticket-listing order the model actually guarantees: `updated_on`
descending, rows with equal timestamps in stored (insertion) order,
i.e. `id` ascending. -/
def updatedDescThenIdAsc (a b : Ticket) : Prop :=
  b.updated_on < a.updated_on ∨ (a.updated_on = b.updated_on ∧ a.id < b.id)

instance : DecidableRel updatedDescThenIdDesc := fun a b => by
  unfold updatedDescThenIdDesc; infer_instance

instance : DecidableRel updatedDescThenIdAsc := fun a b => by
  unfold updatedDescThenIdAsc; infer_instance

/-- The empty ticket filter (`listTickets({})`). -/
def emptyFilter : TicketFilter := {}

/-- Two tickets inserted in id order with the same `updated_on`
timestamp, for the C1 tie-break analysis. -/
def tieDB : DB :=
  { users := [1]
    teams := []
    categories := []
    tickets := [{ witnessTicket with id := 1, updated_on := 5, assigned_team := none },
                { witnessTicket with id := 2, updated_on := 5, assigned_team := none }]
    comments := []
    nextTicketId := 3 }

/-- A ticket row whose enumerated fields all hold declared choice
values. -/
def choicesTicketOK (t : Ticket) : Prop :=
  t.status ∈ STATUS ∧ t.type ∈ TYPE ∧ t.priority ∈ PRIORITY

/-- Every persisted ticket holds declared choice values in `status`,
`type` and `priority`. -/
def choicesOK (db : DB) : Prop :=
  ∀ t ∈ db.tickets, choicesTicketOK t

/-- The ticket row created by `Op.create printerArgs 5` on the initial
database, for the C5 witness. -/
def printerTicket : Ticket :=
  { id := 1
    author := 1
    title := "Printer broken today"
    description := "This printer is broken ok"
    ticket_image := none
    status := "open"
    type := "incident"
    priority := "low"
    created_on := 5
    updated_on := 5
    category := none
    assigned_team := none
    assigned_technician := none }

/-- A ticket authored by a given user, for the C10 cascade analysis. -/
def cascadeTicket (i a : Nat) : Ticket :=
  { witnessTicket with id := i, author := a, assigned_team := none }

/-- Database for the C10 witness: user 1 authored ticket 10 and also a
comment on ticket 20, which user 2 authored; user 2 commented on
ticket 10. -/
def cascadeDB : DB :=
  { users := [1, 2]
    teams := []
    categories := []
    tickets := [cascadeTicket 10 1, cascadeTicket 20 2]
    comments := [⟨1, 10, some 2, "Thanks for the report", 1⟩,
                 ⟨2, 20, some 1, "Also happening here", 2⟩]
    nextTicketId := 21 }

/-! ## Theorems -/

/-- The tag scanner never lets a `<` through: every character emitted in
non-tag mode was tested against `<`. -/
theorem lt_not_mem_stripTagsAux (l : List Char) :
    ∀ b : Bool, '<' ∉ stripTagsAux b l := by
  induction l with
  | nil => intro b; cases b <;> simp [stripTagsAux]
  | cons c cs ih =>
      intro b
      cases b with
      | false =>
          by_cases hc : c = '<'
          · simpa [stripTagsAux, hc] using ih true
          · simpa [stripTagsAux, hc] using ⟨Ne.symm hc, ih false⟩
      | true =>
          by_cases hc : c = '>'
          · simpa [stripTagsAux, hc] using ih false
          · simpa [stripTagsAux, hc] using ih true

/-- On input without `<`, the tag scanner in non-tag mode is the
identity. -/
theorem stripTagsAux_of_not_mem (l : List Char) (h : '<' ∉ l) :
    stripTagsAux false l = l := by
  induction l with
  | nil => rfl
  | cons c cs ih =>
      simp only [List.mem_cons, not_or] at h
      simp [stripTagsAux, Ne.symm h.1, ih h.2]

/-- Claim C9: `stripMarkup` is a pure function of its input — in the
model it is a plain function and `Comment.body_without_tags` only reads
the stored body, never rewriting it — which removes every markup tag (no
`<` survives in its output) and preserves all non-tag characters
including whitespace; in particular it sends `"<b>Hi</b>  "` to
`"Hi  "`. -/
theorem stripMarkup_removes_tags_preserves_text :
    stripMarkup "<b>Hi</b>  " = "Hi  "
    ∧ (∀ c : Comment, c.body_without_tags = stripMarkup c.body)
    ∧ (∀ s : String, '<' ∉ s.data → stripMarkup s = s)
    ∧ (∀ s : String, '<' ∉ (stripMarkup s).data) := by
  refine ⟨by decide, fun c => rfl, fun s hs => ?_, fun s => ?_⟩
  · show String.mk (stripTagsAux false s.data) = s
    rw [stripTagsAux_of_not_mem s.data hs]
  · exact lt_not_mem_stripTagsAux s.data false

/-- Witness for claim C9: the tag-free string `"Hi  "` satisfies the
hypothesis of the preservation conjunct and is left unchanged. -/
theorem stripMarkup_removes_tags_preserves_text_witness :
    '<' ∉ "Hi  ".data ∧ stripMarkup "Hi  " = "Hi  " :=
  ⟨by decide, stripMarkup_removes_tags_preserves_text.2.2.1 "Hi  " (by decide)⟩

/-- Claim C4: for an image file of an accepted type, `validate_image`
fails with `ImageTooLarge` exactly when the size strictly exceeds
3 * 1024 * 1024 = 3,145,728 bytes, and succeeds at exactly 3,145,728
bytes (inclusive boundary). -/
theorem validate_image_size_boundary (ext : String)
    (h : ext = "jpg" ∨ ext = "png") :
    (∀ size : Nat,
      (validate_image ⟨ext, size⟩ = some .ImageTooLarge ↔ 3145728 < size))
    ∧ validate_image ⟨ext, 3145728⟩ = none := by
  have hext : ¬ (ext ≠ "jpg" ∧ ext ≠ "png") := by
    rcases h with h | h <;> simp [h]
  have h3 : (3 * 1024 * 1024 : Nat) = 3145728 := by norm_num
  constructor
  · intro size
    simp only [validate_image, if_neg hext, h3]
    by_cases hs : 3145728 < size
    · simp [hs]
    · simp [hs]
  · simp [validate_image, hext, h3]

/-- Witness for claim C4: a 3,145,729-byte jpg is rejected as too large
and a 3,145,728-byte jpg passes. -/
theorem validate_image_size_boundary_witness :
    (validate_image ⟨"jpg", 3145729⟩ = some .ImageTooLarge ↔ 3145728 < 3145729)
    ∧ validate_image ⟨"jpg", 3145728⟩ = none :=
  ⟨(validate_image_size_boundary "jpg" (Or.inl rfl)).1 3145729,
   (validate_image_size_boundary "jpg" (Or.inl rfl)).2⟩

/-- Claim C3: a description whose tag-stripped form is shorter than 20
characters makes `createTicket` fail with `EmptyOrTooShort`, and nothing
is persisted: the database is unchanged. -/
theorem createTicket_short_description_fails (db : DB) (a : CreateArgs) (now : Nat)
    (h : (stripMarkup a.description).length < 20) :
    createTicket db a now = .error (createErrors a)
    ∧ ValidationError.EmptyOrTooShort ∈ createErrors a
    ∧ createTicketApply db a now = db := by
  have hd : textfield_not_empty 20 a.description = some .EmptyOrTooShort := by
    simp [textfield_not_empty, h]
  have hmem : ValidationError.EmptyOrTooShort ∈ createErrors a := by
    simp [createErrors, hd]
  cases hE : createErrors a with
  | nil => rw [hE] at hmem; cases hmem
  | cons e es =>
      refine ⟨?_, hE ▸ hmem, ?_⟩
      · simp [createTicket, hE]
      · simp [createTicketApply, createTicket, hE]

/-- Witness for claim C3: a five-character description is rejected and
the initial database stays empty. -/
theorem createTicket_short_description_fails_witness :
    createTicket DB.initial ⟨1, "A valid ticket title", "short", "incident", none, none⟩ 0
        = .error (createErrors ⟨1, "A valid ticket title", "short", "incident", none, none⟩)
    ∧ ValidationError.EmptyOrTooShort
        ∈ createErrors ⟨1, "A valid ticket title", "short", "incident", none, none⟩
    ∧ createTicketApply DB.initial ⟨1, "A valid ticket title", "short", "incident", none, none⟩ 0
        = DB.initial :=
  createTicket_short_description_fails DB.initial
    ⟨1, "A valid ticket title", "short", "incident", none, none⟩ 0 (by decide)

/-- Claim C7: a successful `createTicket` call that supplies no category
(and cannot supply status or priority — the creation form has no such
fields) appends exactly one ticket, with `status = "open"`,
`priority = "low"`, `category = null` and
`created_on = updated_on = now`. -/
theorem createTicket_defaults (db : DB) (a : CreateArgs) (now : Nat) (db2 : DB)
    (h : createTicket db a now = .ok db2) (hc : a.category = none) :
    ∃ t : Ticket,
      db2.tickets = db.tickets ++ [t]
      ∧ t.status = "open" ∧ t.priority = "low" ∧ t.category = none
      ∧ t.created_on = now ∧ t.updated_on = now ∧ t.created_on = t.updated_on := by
  cases hE : createErrors a with
  | nil =>
      simp only [createTicket, hE] at h
      cases h
      exact ⟨_, rfl, rfl, rfl, hc, rfl, rfl, rfl⟩
  | cons e es =>
      simp [createTicket, hE] at h

/-- Witness for claim C7: creating the printer ticket on the initial
database succeeds and the appended ticket carries the defaults. -/
theorem createTicket_defaults_witness :
    ∃ t : Ticket,
      (createTicketApply DB.initial printerArgs 5).tickets = DB.initial.tickets ++ [t]
      ∧ t.status = "open" ∧ t.priority = "low" ∧ t.category = none
      ∧ t.created_on = 5 ∧ t.updated_on = 5 ∧ t.created_on = t.updated_on :=
  createTicket_defaults DB.initial printerArgs 5
    (createTicketApply DB.initial printerArgs 5) rfl rfl

/-- Claim C6: `set_ticket_updated_now` persists exactly the target
ticket's `updated_on` field: the users, teams, categories and comments
tables are untouched, the target row keeps every other field (the row
updated only in `updated_on` is a member afterwards), unrelated rows are
untouched, and a retry at a later instant only advances the timestamp
further. -/
theorem set_ticket_updated_now_frame (db : DB) (tid n1 n2 : Nat) (t : Ticket)
    (ht : t ∈ db.tickets) (hn : n1 ≤ n2) :
    (set_ticket_updated_now db tid n1).users = db.users
    ∧ (set_ticket_updated_now db tid n1).teams = db.teams
    ∧ (set_ticket_updated_now db tid n1).categories = db.categories
    ∧ (set_ticket_updated_now db tid n1).comments = db.comments
    ∧ (t.id = tid →
        { t with updated_on := n1 } ∈ (set_ticket_updated_now db tid n1).tickets
        ∧ { t with updated_on := n2 }
            ∈ (set_ticket_updated_now (set_ticket_updated_now db tid n1) tid n2).tickets
        ∧ n1 ≤ n2)
    ∧ (t.id ≠ tid →
        t ∈ (set_ticket_updated_now db tid n1).tickets
        ∧ t ∈ (set_ticket_updated_now (set_ticket_updated_now db tid n1) tid n2).tickets) := by
  refine ⟨rfl, rfl, rfl, rfl, fun heq => ⟨?_, ?_, hn⟩, fun hne => ⟨?_, ?_⟩⟩
  · refine List.mem_map.mpr ⟨t, ht, ?_⟩
    simp [heq]
  · refine List.mem_map.mpr ⟨{ t with updated_on := n1 }, ?_, ?_⟩
    · exact List.mem_map.mpr ⟨t, ht, by simp [heq]⟩
    · simp [heq]
  · refine List.mem_map.mpr ⟨t, ht, ?_⟩
    simp [hne]
  · refine List.mem_map.mpr ⟨t, ?_, ?_⟩
    · exact List.mem_map.mpr ⟨t, ht, by simp [hne]⟩
    · simp [hne]

/-- Witness for claim C6: touching ticket 1 of `witnessDB` at instants
10 then 20 rewrites only its timestamp. -/
theorem set_ticket_updated_now_frame_witness :
    (set_ticket_updated_now witnessDB 1 10).users = witnessDB.users
    ∧ (set_ticket_updated_now witnessDB 1 10).teams = witnessDB.teams
    ∧ (set_ticket_updated_now witnessDB 1 10).categories = witnessDB.categories
    ∧ (set_ticket_updated_now witnessDB 1 10).comments = witnessDB.comments
    ∧ ((witnessTicket).id = 1 →
        { witnessTicket with updated_on := 10 }
            ∈ (set_ticket_updated_now witnessDB 1 10).tickets
        ∧ { witnessTicket with updated_on := 20 }
            ∈ (set_ticket_updated_now (set_ticket_updated_now witnessDB 1 10) 1 20).tickets
        ∧ 10 ≤ 20)
    ∧ ((witnessTicket).id ≠ 1 →
        witnessTicket ∈ (set_ticket_updated_now witnessDB 1 10).tickets
        ∧ witnessTicket
            ∈ (set_ticket_updated_now (set_ticket_updated_now witnessDB 1 10) 1 20).tickets) :=
  set_ticket_updated_now_frame witnessDB 1 10 20 witnessTicket
    (by decide) (by decide)

/-- Claim C8: after deleting a team, a ticket that referenced it is still
retrievable by id and comes back with `assigned_team = null` and every
other field unchanged. -/
theorem deleteTeam_nulls_ticket_reference (db : DB) (tmid tid : Nat) (t : Ticket)
    (h : getTicket db tid = .ok t) (ha : t.assigned_team = some tmid) :
    getTicket (deleteTeam db tmid) tid = .ok { t with assigned_team := none } := by
  have hf : db.tickets.find? (fun x => x.id = tid) = some t := by
    cases hx : db.tickets.find? (fun x => x.id = tid) with
    | none => simp [getTicket, hx] at h
    | some t' => simpa [getTicket, hx] using h
  have hpf :
      ((fun x : Ticket => decide (x.id = tid)) ∘
        (fun x : Ticket =>
          if x.assigned_team = some tmid then { x with assigned_team := none } else x))
      = fun x : Ticket => decide (x.id = tid) := by
    funext x
    by_cases hx : x.assigned_team = some tmid <;> simp [hx]
  show (match (deleteTeam db tmid).tickets.find? (fun x => x.id = tid) with
        | some t => Except.ok t
        | none => Except.error NotFoundError.NotFound)
      = Except.ok { t with assigned_team := none }
  have : (deleteTeam db tmid).tickets.find? (fun x => x.id = tid)
      = some { t with assigned_team := none } := by
    show (db.tickets.map _).find? _ = _
    rw [List.find?_map, hpf, hf]
    simp [ha]
  rw [this]

/-- Witness for claim C8: deleting team 5 of `witnessDB` nulls ticket 1's
team reference and keeps the rest of the row. -/
theorem deleteTeam_nulls_ticket_reference_witness :
    getTicket (deleteTeam witnessDB 5) 1
      = .ok { witnessTicket with assigned_team := none } :=
  deleteTeam_nulls_ticket_reference witnessDB 5 1 witnessTicket
    rfl rfl

/-- Membership in a stable descending insertion. -/
theorem mem_insertByUpdatedDesc {x y : Ticket} :
    ∀ {l : List Ticket}, y ∈ insertByUpdatedDesc x l ↔ y = x ∨ y ∈ l := by
  intro l
  induction l with
  | nil => simp [insertByUpdatedDesc]
  | cons h t ih =>
      by_cases hc : h.updated_on ≤ x.updated_on
      · simp [insertByUpdatedDesc, hc]
      · simp [insertByUpdatedDesc, hc, ih]
        tauto

/-- Membership in the stable descending sort. -/
theorem mem_sortByUpdatedDesc {y : Ticket} :
    ∀ {l : List Ticket}, y ∈ sortByUpdatedDesc l ↔ y ∈ l := by
  intro l
  induction l with
  | nil => simp [sortByUpdatedDesc]
  | cons h t ih => simp [sortByUpdatedDesc, mem_insertByUpdatedDesc, ih]

/-- Inserting a row whose id is below every id in an ordered list keeps
the list ordered by `updated_on` descending with stored-order ties. -/
theorem pairwise_insertByUpdatedDesc {x : Ticket} {l : List Ticket}
    (h : l.Pairwise updatedDescThenIdAsc) (hx : ∀ y ∈ l, x.id < y.id) :
    (insertByUpdatedDesc x l).Pairwise updatedDescThenIdAsc := by
  induction l with
  | nil => simp [insertByUpdatedDesc, List.pairwise_cons]
  | cons hd t ih =>
      rw [List.pairwise_cons] at h
      by_cases hc : hd.updated_on ≤ x.updated_on
      · rw [insertByUpdatedDesc, if_pos hc, List.pairwise_cons]
        refine ⟨?_, List.pairwise_cons.mpr h⟩
        intro y hy
        rcases List.mem_cons.mp hy with hy | hy
        · subst hy
          rcases lt_or_eq_of_le hc with hlt | heq
          · exact Or.inl hlt
          · exact Or.inr ⟨heq.symm, hx y (List.mem_cons_self _ _)⟩
        · rcases h.1 y hy with hlt | ⟨heq, _⟩
          · exact Or.inl (lt_of_lt_of_le hlt hc)
          · rcases lt_or_eq_of_le hc with hlt | heq2
            · exact Or.inl (heq ▸ hlt)
            · exact Or.inr ⟨heq2.symm.trans heq, hx y (List.mem_cons_of_mem _ hy)⟩
      · rw [insertByUpdatedDesc, if_neg hc, List.pairwise_cons]
        push_neg at hc
        constructor
        · intro y hy
          rcases mem_insertByUpdatedDesc.mp hy with hy | hy
          · exact hy ▸ Or.inl hc
          · exact h.1 y hy
        · exact ih h.2 (fun y hy => hx y (List.mem_cons_of_mem _ hy))

/-- The stable sort of rows stored in id order is ordered by `updated_on`
descending, rows with equal timestamps keeping their stored (id
ascending) order. -/
theorem pairwise_sortByUpdatedDesc {l : List Ticket}
    (h : l.Pairwise (fun a b => a.id < b.id)) :
    (sortByUpdatedDesc l).Pairwise updatedDescThenIdAsc := by
  induction l with
  | nil => simp [sortByUpdatedDesc]
  | cons hd t ih =>
      rw [List.pairwise_cons] at h
      exact pairwise_insertByUpdatedDesc (ih h.2)
        (fun y hy => h.1 y (mem_sortByUpdatedDesc.mp hy))

/-- Counterexample for claim C1: two tickets stored in insertion order
with the same `updated_on` come back smaller id first, so the listing is
not ordered with ties broken by `id` descending. -/
theorem listTickets_tie_id_desc_counterexample :
    ¬ (listTickets tieDB emptyFilter).Pairwise updatedDescThenIdDesc := by
  decide

/-- Claim C1 (amended): on a database whose ticket rows are stored in id
order (ids are assigned in insertion order), `listTickets` returns the
matching tickets ordered by `updated_on` descending; rows with equal
`updated_on` keep insertion order, i.e. ties are broken by `id`
ascending, not descending. -/
theorem listTickets_sorted_updated_desc (db : DB) (f : TicketFilter)
    (h : db.tickets.Pairwise (fun a b => a.id < b.id)) :
    (listTickets db f).Pairwise updatedDescThenIdAsc :=
  pairwise_sortByUpdatedDesc (h.filter f.matches)

/-- Witness for claim C1 (amended): the tie database is stored in id
order and its listing is ordered as stated. -/
theorem listTickets_sorted_updated_desc_witness :
    (listTickets tieDB emptyFilter).Pairwise updatedDescThenIdAsc :=
  listTickets_sorted_updated_desc tieDB emptyFilter (by decide)

/-- Membership in a stable ascending insertion. -/
theorem mem_insertByCreatedAsc {x y : Comment} :
    ∀ {l : List Comment}, y ∈ insertByCreatedAsc x l ↔ y = x ∨ y ∈ l := by
  intro l
  induction l with
  | nil => simp [insertByCreatedAsc]
  | cons h t ih =>
      by_cases hc : x.created_on < h.created_on
      · simp [insertByCreatedAsc, hc]
      · simp [insertByCreatedAsc, hc, ih]
        tauto

/-- Inserting into a chronologically ordered comment list keeps it
chronologically ordered. -/
theorem pairwise_insertByCreatedAsc {x : Comment} {l : List Comment}
    (h : l.Pairwise (fun a b => a.created_on ≤ b.created_on)) :
    (insertByCreatedAsc x l).Pairwise (fun a b => a.created_on ≤ b.created_on) := by
  induction l with
  | nil => simp [insertByCreatedAsc]
  | cons hd t ih =>
      rw [List.pairwise_cons] at h
      by_cases hc : x.created_on < hd.created_on
      · rw [insertByCreatedAsc, if_pos hc, List.pairwise_cons]
        refine ⟨?_, List.pairwise_cons.mpr h⟩
        intro y hy
        rcases List.mem_cons.mp hy with hy | hy
        · exact hy ▸ le_of_lt hc
        · exact le_trans (le_of_lt hc) (h.1 y hy)
      · rw [insertByCreatedAsc, if_neg hc, List.pairwise_cons]
        push_neg at hc
        constructor
        · intro y hy
          rcases mem_insertByCreatedAsc.mp hy with hy | hy
          · exact hy ▸ hc
          · exact h.1 y hy
        · exact ih h.2

/-- The ascending sort of comments is chronologically ordered. -/
theorem pairwise_sortByCreatedAsc (l : List Comment) :
    (sortByCreatedAsc l).Pairwise (fun a b => a.created_on ≤ b.created_on) := by
  induction l with
  | nil => simp [sortByCreatedAsc]
  | cons hd t ih => exact pairwise_insertByCreatedAsc ih

/-- Claim C2: for every ticket id, `listComments` returns the comments of that ticket ordered by `created_on` ascending: any comment preceding
another in the result was created no later. -/
theorem listComments_chronological (db : DB) (tid : Nat) :
    (listComments db tid).Pairwise (fun a b => a.created_on ≤ b.created_on) :=
  pairwise_sortByCreatedAsc _

/-- Claim C10: deleting a user removes every ticket they authored and,
through the comment-to-ticket cascade, every comment attached to one of
those tickets, whoever wrote it; a comment the user authored on a
surviving ticket stays in place with its author reference nulled. -/
theorem deleteUser_cascades_and_nulls (db : DB) (u : Nat) :
    (∀ t ∈ (deleteUser db u).tickets, t.author ≠ u)
    ∧ (∀ c ∈ (deleteUser db u).comments,
        ∀ t ∈ db.tickets, t.id = c.ticket → t.author ≠ u)
    ∧ (∀ c ∈ db.comments, c.author = some u →
        (∀ t ∈ db.tickets, t.id = c.ticket → t.author ≠ u) →
        { c with author := none } ∈ (deleteUser db u).comments) := by
  refine ⟨?_, ?_, ?_⟩
  · intro t ht
    simp only [deleteUser, List.mem_map, List.mem_filter, decide_eq_true_eq] at ht
    obtain ⟨t0, ⟨ht0, hau⟩, rfl⟩ := ht
    by_cases h2 : t0.assigned_technician = some u <;> simp [h2, hau]
  · intro c hc t ht hid hau
    simp only [deleteUser, List.mem_map, List.mem_filter, List.any_eq_true,
      decide_eq_true_eq, not_exists, not_and] at hc
    obtain ⟨c0, ⟨hc0, hq⟩, rfl⟩ := hc
    have hticket : ∀ x ∈ db.tickets, x.id = c0.ticket → ¬ x.author = u := by
      intro x hx hxid
      have := hq x hx
      tauto
    by_cases h2 : c0.author = some u
    · simp only [h2, if_pos rfl] at hid
      exact hticket t ht hid hau
    · simp only [if_neg h2] at hid
      exact hticket t ht hid hau
  · intro c hc hca hnot
    simp only [deleteUser, List.mem_map]
    refine ⟨c, ?_, by simp [hca]⟩
    simp only [List.mem_filter, List.any_eq_true, decide_eq_true_eq, not_exists, not_and]
    exact ⟨hc, fun x hxmem hxid hxau => hnot x hxmem hxid hxau⟩

/-- Witness for claim C10: after deleting user 1 from `cascadeDB`, the
comment user 1 left on ticket 20 (authored by user 2) survives with a
null author. -/
theorem deleteUser_cascades_and_nulls_witness :
    { (⟨2, 20, some 1, "Also happening here", 2⟩ : Comment) with author := none }
      ∈ (deleteUser cascadeDB 1).comments :=
  (deleteUser_cascades_and_nulls cascadeDB 1).2.2
    ⟨2, 20, some 1, "Also happening here", 2⟩ (by decide) rfl (by decide)

/-- Rows mapped by a function that respects the choice invariant keep
the choice invariant. -/
theorem choicesOK_map {l : List Ticket} {f : Ticket → Ticket}
    (hl : ∀ t ∈ l, choicesTicketOK t)
    (hf : ∀ t, choicesTicketOK t → choicesTicketOK (f t)) :
    ∀ t ∈ l.map f, choicesTicketOK t := by
  intro t ht
  obtain ⟨t0, ht0, rfl⟩ := List.mem_map.mp ht
  exact hf t0 (hl t0 ht0)

/-- Every lifecycle operation preserves the choice-field invariant. -/
theorem choicesOK_applyOp {db : DB} (op : Op) (h : choicesOK db) :
    choicesOK (applyOp db op) := by
  cases op with
  | create a now =>
      show choicesOK (createTicketApply db a now)
      unfold createTicketApply createTicket
      cases hE : createErrors a with
      | cons e es => exact h
      | nil =>
          have hT : a.type ∈ TYPE := by
            by_contra hT
            rw [createErrors, if_neg hT] at hE
            simpa using congrArg List.length hE
          intro t ht
          simp only [List.mem_append, List.mem_singleton] at ht
          rcases ht with ht | rfl
          · exact h t ht
          · exact ⟨by simp [STATUS], hT, by simp [PRIORITY]⟩
  | setStatus tid s now =>
      show choicesOK (updateStatus db tid s now)
      unfold updateStatus
      by_cases hs : s ∈ STATUS
      · rw [if_pos hs]
        refine choicesOK_map h ?_
        intro t ht
        by_cases hid : t.id = tid
        · simpa [DB.updateTicket, hid, choicesTicketOK, hs] using ⟨ht.2.1, ht.2.2⟩
        · simpa [DB.updateTicket, hid] using ht
      · rwa [if_neg hs]
  | team tid tm now =>
      refine choicesOK_map h ?_
      intro t ht
      by_cases hid : t.id = tid <;> simpa [hid, choicesTicketOK] using ht
  | technician tid u now =>
      refine choicesOK_map h ?_
      intro t ht
      by_cases hid : t.id = tid <;> simpa [hid, choicesTicketOK] using ht
  | categorize tid c now =>
      refine choicesOK_map h ?_
      intro t ht
      by_cases hid : t.id = tid <;> simpa [hid, choicesTicketOK] using ht
  | touch tid now =>
      refine choicesOK_map h ?_
      intro t ht
      by_cases hid : t.id = tid <;> simpa [hid, choicesTicketOK] using ht
  | dropTeam tmid =>
      refine choicesOK_map h ?_
      intro t ht
      by_cases ha : t.assigned_team = some tmid <;> simpa [ha, choicesTicketOK] using ht
  | dropCategory cid =>
      refine choicesOK_map h ?_
      intro t ht
      by_cases ha : t.category = some cid <;> simpa [ha, choicesTicketOK] using ht
  | dropUser u =>
      show choicesOK (deleteUser db u)
      intro t ht
      simp only [deleteUser, List.mem_map] at ht
      obtain ⟨t0, ht0, rfl⟩ := ht
      have ht0m : t0 ∈ db.tickets := List.mem_of_mem_filter ht0
      by_cases h2 : t0.assigned_technician = some u <;>
        simpa [h2, choicesTicketOK] using h t0 ht0m

/-- Folding any operation sequence preserves the choice-field
invariant. -/
theorem choicesOK_foldl (ops : List Op) :
    ∀ db : DB, choicesOK db → choicesOK (ops.foldl applyOp db) := by
  induction ops with
  | nil => exact fun db h => h
  | cons op rest ih => exact fun db h => ih (applyOp db op) (choicesOK_applyOp op h)

/-- Claim C5: after any sequence of lifecycle operations from the
initial database, every persisted ticket has `status` in
{open, inprogress, onhold, closed}, `type` in {request, incident} and
`priority` in {low, medium, high}; no operation stores any other
string. -/
theorem runOps_choices_invariant (ops : List Op) :
    ∀ t ∈ (runOps ops).tickets,
      t.status ∈ STATUS ∧ t.type ∈ TYPE ∧ t.priority ∈ PRIORITY := by
  intro t ht
  exact choicesOK_foldl ops DB.initial (by intro x hx; cases hx) t ht

/-- Witness for claim C5: the ticket created by the printer operation
holds declared choice values. -/
theorem runOps_choices_invariant_witness :
    printerTicket.status ∈ STATUS
    ∧ printerTicket.type ∈ TYPE
    ∧ printerTicket.priority ∈ PRIORITY :=
  runOps_choices_invariant [Op.create printerArgs 5] printerTicket (by decide)

end SupportHub
